import Mathlib

/-!
Shallow embedding of the CrowdSpark backend (src/index.js).

The server is a set of Express handlers over a MongoDB store holding User,
Campaign and Transaction documents.  The store is modelled as three lists;
each handler becomes a pure function from a request and a store state to an
HTTP response (status code plus the `message` field of the JSON body) and the
successor state.  External collaborators are parameters: bcrypt hashing and
comparison are function arguments, Date parsing is a function argument,
`new Date()` is an explicit `now : Nat` (milliseconds), and the fresh
document id / uuid that the store or uuid library would produce is an
explicit string argument.  Socket.IO emissions and cookie setting carry no
store state and are omitted.  Mongoose casts route/query ids to ObjectId and
throws a CastError on malformed input, which every handler's catch-all turns
into its 500 response; `findById`-style lookups are therefore modelled as
`Except` values that are in error exactly on malformed ids.
-/

namespace CrowdSpark

/-- HTTP response observed by the caller: status code and the `message`
field of the JSON error/success body. -/
structure Resp where
  status : Nat
  message : String
deriving DecidableEq

/-- Identity context attached by the verifyToken middleware:
`{ id, username, role }` from the signed cookie. -/
structure Auth where
  id : String
  username : String
  role : String
deriving DecidableEq

/-- User document.  `password` holds the bcrypt hash.  Fields that a request
may omit are `Option`s. -/
structure User where
  id : String
  username : Option String
  email : Option String
  password : String
  role : String
  backedCampaigns : List String
deriving DecidableEq

/-- Campaign document.  `raisedAmount` is `Option` because the contribution
handler explicitly treats a missing value as 0 (`campaign.raisedAmount || 0`).
`deadline` is the parsed timestamp in milliseconds. -/
structure Campaign where
  id : String
  title : String
  description : String
  goalAmount : Int
  raisedAmount : Option Int
  deadline : Option Nat
  category : Option String
  image : String
  status : String
  owner : String
  supporters : List String
deriving DecidableEq

/-- Transaction document as created by POST /transactions. -/
structure Transaction where
  user : String
  campaign : String
  amount : Int
  provider : String
  status : String
  message : String
  paymentId : String
deriving DecidableEq

/-- The document store: the three collections. -/
structure DB where
  users : List User
  campaigns : List Campaign
  transactions : List Transaction
deriving DecidableEq

/-- Hexadecimal digit test, for ObjectId strings. -/
def isHexDigit (c : Char) : Bool :=
  c.isDigit || ('a' ≤ c && c ≤ 'f') || ('A' ≤ c && c ≤ 'F')

/-- mongoose.Types.ObjectId.isValid on a string: a 12-character string or a
24-character hexadecimal string. -/
def isValidObjectId (s : String) : Bool :=
  s.length == 12 || (s.length == 24 && s.toList.all isHexDigit)

/-- Campaign.findById: a malformed id makes mongoose throw a CastError
(the `.error` case, landing in the handler's catch); otherwise the lookup
returns the first document with that id, if any. -/
def findCampaignById (db : DB) (id : String) : Except String (Option Campaign) :=
  if isValidObjectId id then .ok (db.campaigns.find? (fun c => c.id == id))
  else .error "CastError"

/-- User.findOne({ email }): mongoose drops a key whose value is undefined,
so a request without an email queries findOne({}), matching any document. -/
def emailExists (db : DB) (email : Option String) : Bool :=
  match email with
  | none => !db.users.isEmpty
  | some e => db.users.any (fun u => u.email == some e)

/-- Body of POST /register; every field may be absent. -/
structure RegisterReq where
  username : Option String
  email : Option String
  password : Option String
  role : Option String
deriving DecidableEq

/-- POST /register (src/index.js lines 61-99).  Order of the source: email
uniqueness check, then bcrypt.hash (which throws on a missing password,
reaching the catch-all 500 "Server error"), then the role allow-list check,
then User.create and the 201 response.  `hash` stands for bcrypt.hash and
`newId` for the id the store assigns. -/
def register (hash : String → String) (newId : String) (req : RegisterReq)
    (db : DB) : Resp × DB :=
  if emailExists db req.email then
    (⟨400, "Email already registered"⟩, db)
  else
    match req.password with
    | none => (⟨500, "Server error"⟩, db)
    | some pw =>
      if req.role == some "backer" || req.role == some "campaignOwner" then
        let u : User :=
          { id := newId, username := req.username, email := req.email,
            password := hash pw, role := req.role.getD "",
            backedCampaigns := [] }
        (⟨201, "Registered successfully"⟩, { db with users := db.users ++ [u] })
      else
        (⟨400, "Invalid role selected"⟩, db)

/-- POST /login (src/index.js lines 102-127).  `compare` stands for
bcrypt.compare (provided password against the stored hash). -/
def login (compare : String → String → Bool) (email password : String)
    (db : DB) : Resp × DB :=
  match db.users.find? (fun u => u.email == some email) with
  | none => (⟨400, "Invalid email or password"⟩, db)
  | some u =>
    if compare password u.password then (⟨200, "Login successful"⟩, db)
    else (⟨400, "Invalid email or password"⟩, db)

/-- Body of POST /campaigns; every field may be absent. -/
structure CreateCampaignReq where
  title : Option String
  description : Option String
  goalAmount : Option Int
  deadline : Option String
  category : Option String
  image : Option String
deriving DecidableEq

/-- JavaScript truthiness of a possibly-absent string field. -/
def truthyStr : Option String → Bool
  | none => false
  | some s => s != ""

/-- JavaScript truthiness of a possibly-absent numeric field. -/
def truthyInt : Option Int → Bool
  | none => false
  | some n => n != 0

/-- POST /campaigns (src/index.js lines 151-207).  Order of the source: role
gate, required-field truthiness check (category is not required), deadline
parse-and-compare (`isNaN(deadlineDate.getTime()) || deadlineDate < new
Date()`, a non-strict acceptance of the present instant), per-owner title
uniqueness check, then Campaign.create with raisedAmount 0 and status
"active".  `parseDate` stands for the Date constructor (none = Invalid
Date), `now` for `new Date()`, `newId` for the id the store assigns. -/
def createCampaign (parseDate : String → Option Nat) (now : Nat)
    (newId : String) (auth : Auth) (req : CreateCampaignReq) (db : DB) :
    Resp × DB :=
  if !(auth.role == "campaignOwner" || auth.role == "admin") then
    (⟨403, "Only campaign owners or admins can create campaigns"⟩, db)
  else if !(truthyStr req.title && truthyStr req.description
      && truthyInt req.goalAmount && truthyStr req.deadline
      && truthyStr req.image) then
    (⟨400, "All required fields must be filled"⟩, db)
  else
    match parseDate (req.deadline.getD "") with
    | none => (⟨400, "Invalid or past deadline"⟩, db)
    | some t =>
      if t < now then (⟨400, "Invalid or past deadline"⟩, db)
      else if (db.campaigns.find?
          (fun c => c.title == req.title.getD "" && c.owner == auth.id)).isSome then
        (⟨409, "Campaign with this title already exists"⟩, db)
      else
        let c : Campaign :=
          { id := newId, title := req.title.getD "",
            description := req.description.getD "",
            goalAmount := req.goalAmount.getD 0, raisedAmount := some 0,
            deadline := some t, category := req.category,
            image := req.image.getD "", status := "active",
            owner := auth.id, supporters := [] }
        (⟨201, "Campaign created successfully"⟩,
         { db with campaigns := db.campaigns ++ [c] })

/-- campaign.save(): mongoose persists the mutated document in place. -/
def saveCampaign (db : DB) (c : Campaign) : DB :=
  { db with campaigns := db.campaigns.map (fun x => if x.id == c.id then c else x) }

/-- user.save(): mongoose persists the mutated document in place. -/
def saveUser (db : DB) (u : User) : DB :=
  { db with users := db.users.map (fun x => if x.id == u.id then u else x) }

/-- Body of POST /transactions. -/
structure TransactReq where
  campaignId : String
  amount : Int
  message : Option String
deriving DecidableEq

/-- Steps 2-3 of the contribution workflow: increment raisedAmount by the
supplied amount, treating a missing prior value as 0
(`campaign.raisedAmount = (campaign.raisedAmount || 0) + amount`), and
append the caller to supporters unless already present. -/
def contribUpdatedCampaign (auth : Auth) (amount : Int) (c : Campaign) :
    Campaign :=
  { c with
    raisedAmount := some (c.raisedAmount.getD 0 + amount),
    supporters :=
      if c.supporters.contains auth.id then c.supporters
      else c.supporters ++ [auth.id] }

/-- Step 5: the Transaction document created by Transaction.create, with
status fixed to "completed" and paymentId a fresh uuid. -/
def contribTx (uuid : String) (auth : Auth) (req : TransactReq) : Transaction :=
  { user := auth.id, campaign := req.campaignId, amount := req.amount,
    provider := auth.username, status := "completed",
    message := req.message.getD "", paymentId := uuid }

/-- Step 6: load the contributing user; if found and backedCampaigns does
not already contain this campaign, append it and save. -/
def updateBackedCampaigns (cid : String) (auth : Auth) (db : DB) : DB :=
  match db.users.find? (fun x => x.id == auth.id) with
  | none => db
  | some u =>
    if u.backedCampaigns.contains cid then db
    else saveUser db
      { u with backedCampaigns := u.backedCampaigns ++ [cid] }

/-- POST /transactions (src/index.js lines 242-327), the contribution
workflow.  Order of the source: guard on a falsy req.user.id (401), load the
campaign (404 when absent; a malformed id throws, reaching the catch-all
500), update and save the campaign, create the Transaction, update the
caller's backedCampaigns, answer 201.  The Socket.IO emit carries no store
state.  `uuid` stands for uuidv4(). -/
def transact (uuid : String) (auth : Auth) (req : TransactReq) (db : DB) :
    Resp × DB :=
  if auth.id == "" then (⟨401, "Unauthorized. Invalid token."⟩, db)
  else
    match findCampaignById db req.campaignId with
    | .error _ => (⟨500, "Server error during transaction"⟩, db)
    | .ok none => (⟨404, "Campaign not found"⟩, db)
    | .ok (some c) =>
      let db1 := saveCampaign db (contribUpdatedCampaign auth req.amount c)
      let db2 : DB :=
        { db1 with transactions := db1.transactions ++ [contribTx uuid auth req] }
      (⟨201, "Transaction successful"⟩,
       updateBackedCampaigns req.campaignId auth db2)

/-- DELETE /admin/users/:id (src/index.js lines 405-414): admin gate, then
User.findByIdAndDelete (CastError on a malformed id reaches the catch-all
500; deleting a nonexistent id still answers "User deleted"). -/
def adminDeleteUser (auth : Auth) (id : String) (db : DB) : Resp × DB :=
  if auth.role != "admin" then (⟨403, "Forbidden"⟩, db)
  else if isValidObjectId id then
    (⟨200, "User deleted"⟩, { db with users := db.users.filter (fun u => u.id != id) })
  else (⟨500, "Failed to delete user"⟩, db)

/-- DELETE /admin/campaigns/:id (src/index.js lines 429-438): admin gate,
then Campaign.findByIdAndDelete; nothing touches the Transaction or User
collections. -/
def adminDeleteCampaign (auth : Auth) (id : String) (db : DB) : Resp × DB :=
  if auth.role != "admin" then (⟨403, "Forbidden"⟩, db)
  else if isValidObjectId id then
    (⟨200, "Campaign deleted"⟩,
     { db with campaigns := db.campaigns.filter (fun c => c.id != id) })
  else (⟨500, "Failed to delete campaign"⟩, db)

/-- Result of GET /campaigns/:id — either the campaign document (200) or an
error response. -/
inductive CampaignFetch
  | ok (c : Campaign)
  | err (status : Nat) (message : String)
deriving DecidableEq

/-- GET /campaigns/:id (src/index.js lines 450-473; Express dispatches to the
first of the two identical registrations): explicit
mongoose.Types.ObjectId.isValid check giving a distinct 400 for malformed
ids, then findById with a 404 for a missing document. -/
def getCampaignById (id : String) (db : DB) : CampaignFetch :=
  if !isValidObjectId id then .err 400 "Invalid campaign ID format"
  else match db.campaigns.find? (fun c => c.id == id) with
    | none => .err 404 "Campaign not found"
    | some c => .ok c

/-- Result of GET /campaigns/:id/transactions — either the transaction list
(200) or an error response. -/
inductive TxFetch
  | ok (txs : List Transaction)
  | err (status : Nat) (message : String)
deriving DecidableEq

/-- GET /campaigns/:id/transactions (src/index.js lines 496-506): no id
validation; Transaction.find({ campaign: id }) casts the id, so a malformed
id throws and reaches the catch-all 500, while any well-formed id answers
200 with the (possibly empty) matching list.  The createdAt sort and the
username population affect presentation only and are not modelled. -/
def getCampaignTransactions (id : String) (db : DB) : TxFetch :=
  if isValidObjectId id then
    .ok (db.transactions.filter (fun t => t.campaign == id))
  else .err 500 "Failed to fetch transactions"

/-! Concrete instances used by witnesses and counterexamples. -/

/-- A well-formed ObjectId string: 24 hexadecimal characters. -/
def oid1 : String := "aaaaaaaaaaaaaaaaaaaaaaaa"

/-- A concrete stand-in for bcrypt.hash. -/
def hashW : String → String := fun s => "h:" ++ s

/-- A concrete stand-in for bcrypt.compare that always fails. -/
def cmpFalse : String → String → Bool := fun _ _ => false

/-- A concrete Date parser mapping every string to the instant 5. -/
def parseAt5 : String → Option Nat := fun _ => some 5

def campW : Campaign :=
  { id := oid1, title := "T", description := "D", goalAmount := 1000,
    raisedAmount := some 0, deadline := some 100, category := none,
    image := "img", status := "active", owner := "owner1", supporters := [] }

def userW : User :=
  { id := "u1", username := some "alice", email := some "a@b.c",
    password := "h:pw", role := "backer", backedCampaigns := [] }

def authW : Auth := { id := "u1", username := "alice", role := "backer" }

def authOwnerW : Auth := { id := "o1", username := "owen", role := "campaignOwner" }

def dbW : DB := { users := [userW], campaigns := [campW], transactions := [] }

def emptyDB : DB := { users := [], campaigns := [], transactions := [] }

def creqW : CreateCampaignReq :=
  { title := some "T", description := some "D", goalAmount := some 1000,
    deadline := some "2030-01-01", category := none, image := some "img" }

/-- A campaign owned by authOwnerW, for the duplicate-title instance. -/
def campO : Campaign :=
  { id := oid1, title := "T", description := "D", goalAmount := 1000,
    raisedAmount := some 0, deadline := some 100, category := none,
    image := "img", status := "active", owner := "o1", supporters := [] }

def dbOwner : DB := { users := [], campaigns := [campO], transactions := [] }

/-! Helper lemmas about the store operations. -/

theorem find_map_stable {α : Type} (p : α → Bool) (f : α → α) (l : List α)
    (c c' : α) (h : l.find? p = some c) (hfc : f c = c') (hpc : p c' = true)
    (hstable : ∀ x, p x = false → f x = x) :
    (l.map f).find? p = some c' := by
  induction l with
  | nil => simp at h
  | cons a l ih =>
    rw [List.map_cons]
    by_cases hpa : p a = true
    · rw [List.find?_cons_of_pos _ hpa] at h
      obtain rfl : a = c := Option.some.inj h
      rw [hfc]
      exact List.find?_cons_of_pos _ hpc
    · rw [List.find?_cons_of_neg _ hpa] at h
      have hpa' : p a = false := by simpa using hpa
      rw [hstable a hpa', List.find?_cons_of_neg _ hpa]
      exact ih h

theorem find_replace_by {α : Type} (idf : α → String) (l : List α)
    (key : String) (c c' : α)
    (h : l.find? (fun x => idf x == key) = some c) (hid : idf c' = idf c) :
    (l.map (fun x => if idf x == idf c' then c' else x)).find?
      (fun x => idf x == key) = some c' := by
  have hcid : idf c = key := by simpa using List.find?_some h
  refine find_map_stable _ _ l c c' h ?_ ?_ ?_
  · simp [hid]
  · simp [hid, hcid]
  · intro x hx
    have hxne : idf x ≠ key := by simpa using hx
    have hxc : idf x ≠ idf c' := by rw [hid, hcid]; exact hxne
    simp [hxc]

theorem saveCampaign_users (db : DB) (c : Campaign) :
    (saveCampaign db c).users = db.users := rfl

theorem saveCampaign_transactions (db : DB) (c : Campaign) :
    (saveCampaign db c).transactions = db.transactions := rfl

theorem saveUser_transactions (db : DB) (u : User) :
    (saveUser db u).transactions = db.transactions := rfl

theorem saveUser_campaigns (db : DB) (u : User) :
    (saveUser db u).campaigns = db.campaigns := rfl

theorem updateBackedCampaigns_transactions (cid : String) (auth : Auth)
    (db : DB) :
    (updateBackedCampaigns cid auth db).transactions = db.transactions := by
  unfold updateBackedCampaigns
  split
  · rfl
  · split <;> rfl

theorem updateBackedCampaigns_campaigns (cid : String) (auth : Auth)
    (db : DB) :
    (updateBackedCampaigns cid auth db).campaigns = db.campaigns := by
  unfold updateBackedCampaigns
  split
  · rfl
  · split <;> rfl

theorem updateBackedCampaigns_users_found (cid : String) (auth : Auth)
    (db : DB) (u : User)
    (hu : db.users.find? (fun x => x.id == auth.id) = some u)
    (hnb : u.backedCampaigns.contains cid = false) :
    (updateBackedCampaigns cid auth db).users
      = db.users.map (fun x =>
          if x.id == u.id then
            { u with backedCampaigns := u.backedCampaigns ++ [cid] }
          else x) := by
  unfold updateBackedCampaigns
  rw [hu]
  have hmem : cid ∉ u.backedCampaigns := by simpa using hnb
  simp only [saveUser]
  rw [if_neg (by simpa using hnb)]

theorem updateBackedCampaigns_users_already (cid : String) (auth : Auth)
    (db : DB) (u : User)
    (hu : db.users.find? (fun x => x.id == auth.id) = some u)
    (hb : u.backedCampaigns.contains cid = true) :
    (updateBackedCampaigns cid auth db).users = db.users := by
  unfold updateBackedCampaigns
  rw [hu]
  simp only [saveUser]
  rw [if_pos (by simpa using hb)]

/-- Shape of a successful contribution: 201 response, campaign replaced by
its updated version, the new Transaction appended, then the
backedCampaigns update. -/
theorem transact_ok (uuid : String) (auth : Auth) (req : TransactReq)
    (db : DB) (c : Campaign) (hba : (auth.id == "") = false)
    (hc : findCampaignById db req.campaignId = .ok (some c)) :
    transact uuid auth req db =
      (⟨201, "Transaction successful"⟩,
       updateBackedCampaigns req.campaignId auth
         { saveCampaign db (contribUpdatedCampaign auth req.amount c) with
           transactions := db.transactions ++ [contribTx uuid auth req] }) := by
  simp only [transact, hba, Bool.false_eq_true, if_false, hc]
  rfl

theorem transact_ok_transactions (uuid : String) (auth : Auth)
    (req : TransactReq) (db : DB) (c : Campaign)
    (hba : (auth.id == "") = false)
    (hc : findCampaignById db req.campaignId = .ok (some c)) :
    (transact uuid auth req db).2.transactions
      = db.transactions ++ [contribTx uuid auth req] := by
  rw [transact_ok uuid auth req db c hba hc]
  exact updateBackedCampaigns_transactions _ _ _

theorem transact_ok_campaigns (uuid : String) (auth : Auth)
    (req : TransactReq) (db : DB) (c : Campaign)
    (hba : (auth.id == "") = false)
    (hc : findCampaignById db req.campaignId = .ok (some c)) :
    (transact uuid auth req db).2.campaigns
      = db.campaigns.map (fun x =>
          if x.id == (contribUpdatedCampaign auth req.amount c).id
          then contribUpdatedCampaign auth req.amount c else x) := by
  rw [transact_ok uuid auth req db c hba hc]
  rw [updateBackedCampaigns_campaigns]
  rfl

theorem transact_ok_users (uuid : String) (auth : Auth) (req : TransactReq)
    (db : DB) (c : Campaign) (u : User) (hba : (auth.id == "") = false)
    (hc : findCampaignById db req.campaignId = .ok (some c))
    (hu : db.users.find? (fun x => x.id == auth.id) = some u)
    (hnb : u.backedCampaigns.contains req.campaignId = false) :
    (transact uuid auth req db).2.users
      = db.users.map (fun x =>
          if x.id == u.id then
            { u with backedCampaigns := u.backedCampaigns ++ [req.campaignId] }
          else x) := by
  rw [transact_ok uuid auth req db c hba hc]
  exact updateBackedCampaigns_users_found req.campaignId auth _ u hu hnb

theorem transact_ok_users_already (uuid : String) (auth : Auth)
    (req : TransactReq) (db : DB) (c : Campaign) (u : User)
    (hba : (auth.id == "") = false)
    (hc : findCampaignById db req.campaignId = .ok (some c))
    (hu : db.users.find? (fun x => x.id == auth.id) = some u)
    (hb : u.backedCampaigns.contains req.campaignId = true) :
    (transact uuid auth req db).2.users = db.users := by
  rw [transact_ok uuid auth req db c hba hc]
  exact updateBackedCampaigns_users_already req.campaignId auth _ u hu hb

/-! Claim theorems. -/

/-- C1: in POST /transactions a Transaction record is created exactly when
the campaign lookup succeeds: a lookup returning a campaign appends one
Transaction with status "completed"; a lookup returning no campaign, or
throwing on a malformed id, leaves the Transaction collection unchanged. -/
theorem transaction_created_iff_lookup (uuid : String) (auth : Auth)
    (req : TransactReq) (db : DB) (hauth : auth.id ≠ "") :
    (∀ c, findCampaignById db req.campaignId = .ok (some c) →
      ∃ t, (transact uuid auth req db).2.transactions = db.transactions ++ [t]
        ∧ t.status = "completed")
    ∧ (findCampaignById db req.campaignId = .ok none →
      (transact uuid auth req db).2.transactions = db.transactions)
    ∧ (∀ e, findCampaignById db req.campaignId = .error e →
      (transact uuid auth req db).2.transactions = db.transactions) := by
  have hba : (auth.id == "") = false := beq_eq_false_iff_ne.mpr hauth
  refine ⟨fun c hc => ⟨contribTx uuid auth req, ?_, rfl⟩,
    fun hc => ?_, fun e hc => ?_⟩
  · rw [transact_ok uuid auth req db c hba hc]
    exact updateBackedCampaigns_transactions _ _ _
  · simp [transact, hba, hc]
  · simp [transact, hba, hc]

/-- C1 witness: concrete successful lookup on dbW. -/
theorem transaction_created_iff_lookup_witness :
    authW.id ≠ ""
    ∧ findCampaignById dbW oid1 = .ok (some campW)
    ∧ ∃ t, (transact "p1" authW ⟨oid1, 200, none⟩ dbW).2.transactions
        = dbW.transactions ++ [t] ∧ t.status = "completed" := by
  refine ⟨by decide, rfl, ?_⟩
  exact (transaction_created_iff_lookup "p1" authW ⟨oid1, 200, none⟩ dbW
    (by decide)).1 campW rfl

/-- C6: deleting a campaign removes only the Campaign record — the
Transaction and User collections are untouched — and deleting a user
likewise leaves the Transaction collection in place. -/
theorem delete_no_cascade (auth : Auth) (id : String) (db : DB) :
    (adminDeleteCampaign auth id db).2.transactions = db.transactions
    ∧ (adminDeleteCampaign auth id db).2.users = db.users
    ∧ (adminDeleteUser auth id db).2.transactions = db.transactions := by
  unfold adminDeleteCampaign adminDeleteUser
  refine ⟨?_, ?_, ?_⟩ <;> split <;> first
    | rfl
    | (split <;> rfl)

/-- C7: every failing login answers the identical response — status 400,
message "Invalid email or password" — whether no user carries the email or
the password comparison against the stored hash fails, so the two causes
are indistinguishable to the caller. -/
theorem login_failure_indistinguishable (compare : String → String → Bool)
    (db : DB) (e1 p1 e2 p2 : String) (u : User)
    (h1 : db.users.find? (fun x => x.email == some e1) = none)
    (h2 : db.users.find? (fun x => x.email == some e2) = some u)
    (h3 : compare p2 u.password = false) :
    login compare e1 p1 db = login compare e2 p2 db
    ∧ (login compare e1 p1 db).1 = ⟨400, "Invalid email or password"⟩ := by
  simp [login, h1, h2, h3]

/-- C7 witness: unknown email versus wrong password on dbW. -/
theorem login_failure_indistinguishable_witness :
    dbW.users.find? (fun x => x.email == some "z@z.z") = none
    ∧ dbW.users.find? (fun x => x.email == some "a@b.c") = some userW
    ∧ cmpFalse "oops" userW.password = false
    ∧ login cmpFalse "z@z.z" "pw" dbW = login cmpFalse "a@b.c" "oops" dbW := by
  refine ⟨by decide, by decide, by decide, ?_⟩
  exact (login_failure_indistinguishable cmpFalse dbW "z@z.z" "pw" "a@b.c"
    "oops" userW (by decide) (by decide) (by decide)).1

/-- C9: registration validates no field presence — with a fresh email, a
valid role and a missing password the handler reaches bcrypt.hash, which
throws, and answers the generic 500 "Server error", not a 400 validation
error. -/
theorem register_missing_password_500 (hash : String → String)
    (newId : String) (req : RegisterReq) (db : DB)
    (hfresh : emailExists db req.email = false) (hpw : req.password = none)
    (_hrole : req.role = some "backer") :
    register hash newId req db = (⟨500, "Server error"⟩, db)
    ∧ (register hash newId req db).1.status ≠ 400 := by
  simp [register, hfresh, hpw]

/-- C9 witness: concrete registration with missing password. -/
theorem register_missing_password_500_witness :
    emailExists emptyDB (some "b@b.c") = false
    ∧ register hashW "u9" ⟨some "bob", some "b@b.c", none, some "backer"⟩ emptyDB
        = (⟨500, "Server error"⟩, emptyDB) := by
  refine ⟨by decide, ?_⟩
  exact (register_missing_password_500 hashW "u9"
    ⟨some "bob", some "b@b.c", none, some "backer"⟩ emptyDB
    (by decide) rfl rfl).1

/-- C10: GET /campaigns/:id/transactions performs no id validation — a
malformed id reaches the store, throws, and answers the generic 500
"Failed to fetch transactions", while a well-formed id of a nonexistent
campaign answers 200 with the empty list; GET /campaigns/:id instead
answers 400 "Invalid campaign ID format" and 404 "Campaign not found"
respectively. -/
theorem tx_list_no_id_validation (m v : String) (db : DB)
    (hm : isValidObjectId m = false) (hv : isValidObjectId v = true)
    (hnoc : db.campaigns.find? (fun c => c.id == v) = none)
    (hnotx : db.transactions.filter (fun t => t.campaign == v) = []) :
    getCampaignTransactions m db = .err 500 "Failed to fetch transactions"
    ∧ getCampaignById m db = .err 400 "Invalid campaign ID format"
    ∧ getCampaignTransactions v db = .ok []
    ∧ getCampaignById v db = .err 404 "Campaign not found" := by
  simp [getCampaignTransactions, getCampaignById, hm, hv, hnoc, hnotx]

/-- C10 witness: the malformed id "xyz" and the well-formed unknown id
oid1 on the empty store. -/
theorem tx_list_no_id_validation_witness :
    isValidObjectId "xyz" = false
    ∧ isValidObjectId oid1 = true
    ∧ getCampaignTransactions "xyz" emptyDB
        = .err 500 "Failed to fetch transactions"
    ∧ getCampaignById oid1 emptyDB = .err 404 "Campaign not found" := by
  refine ⟨by decide, by decide, ?_, ?_⟩
  · exact (tx_list_no_id_validation "xyz" oid1 emptyDB (by decide) (by decide)
      rfl rfl).1
  · exact (tx_list_no_id_validation "xyz" oid1 emptyDB (by decide) (by decide)
      rfl rfl).2.2.2

/-- C3 counterexample: registering the already-present email "a@b.c"
answers status 400, not the claimed 409. -/
theorem duplicate_email_status_counterexample :
    (register hashW "u2" ⟨some "bob", some "a@b.c", some "pw", some "backer"⟩
      dbW).1.status = 400
    ∧ (register hashW "u2" ⟨some "bob", some "a@b.c", some "pw", some "backer"⟩
      dbW).1.status ≠ 409 := by
  decide

/-- C3 amended: a duplicate email at registration answers 400 "Email
already registered", while a duplicate title for the same owner at campaign
creation answers 409 "Campaign with this title already exists". -/
theorem duplicate_email_400_title_409
    (hash : String → String) (newId : String) (req : RegisterReq) (db : DB)
    (parseDate : String → Option Nat) (now t : Nat) (cid : String)
    (auth : Auth) (creq : CreateCampaignReq) (cdb : DB)
    (hemail : emailExists db req.email = true)
    (hrole : auth.role = "campaignOwner" ∨ auth.role = "admin")
    (ht : truthyStr creq.title = true) (hd : truthyStr creq.description = true)
    (hg : truthyInt creq.goalAmount = true)
    (hdl : truthyStr creq.deadline = true) (hi : truthyStr creq.image = true)
    (hparse : parseDate (creq.deadline.getD "") = some t) (hnow : now ≤ t)
    (hdup : (cdb.campaigns.find?
        (fun c => c.title == creq.title.getD ""
          && c.owner == auth.id)).isSome = true) :
    (register hash newId req db).1 = ⟨400, "Email already registered"⟩
    ∧ (createCampaign parseDate now cid auth creq cdb).1
        = ⟨409, "Campaign with this title already exists"⟩ := by
  constructor
  · simp [register, hemail]
  · have hlt : ¬ t < now := Nat.not_lt.mpr hnow
    rcases hrole with h | h <;>
      simp [createCampaign, h, ht, hd, hg, hdl, hi, hparse, hlt, hdup]

/-- C3 amended witness: duplicate email on dbW, duplicate title "T" for
owner o1 on dbOwner. -/
theorem duplicate_email_400_title_409_witness :
    emailExists dbW (some "a@b.c") = true
    ∧ (dbOwner.campaigns.find?
        (fun c => c.title == (creqW.title.getD "")
          && c.owner == authOwnerW.id)).isSome = true
    ∧ (register hashW "u2"
        ⟨some "bob", some "a@b.c", some "pw", some "backer"⟩ dbW).1
        = ⟨400, "Email already registered"⟩
    ∧ (createCampaign parseAt5 3 "c9" authOwnerW creqW dbOwner).1
        = ⟨409, "Campaign with this title already exists"⟩ := by
  refine ⟨by decide, by decide, ?_, ?_⟩
  · exact (duplicate_email_400_title_409 hashW "u2"
      ⟨some "bob", some "a@b.c", some "pw", some "backer"⟩ dbW parseAt5 3 5
      "c9" authOwnerW creqW dbOwner (by decide) (Or.inl rfl) (by decide)
      (by decide) (by decide) (by decide) (by decide) rfl (by decide)
      (by decide)).1
  · exact (duplicate_email_400_title_409 hashW "u2"
      ⟨some "bob", some "a@b.c", some "pw", some "backer"⟩ dbW parseAt5 3 5
      "c9" authOwnerW creqW dbOwner (by decide) (Or.inl rfl) (by decide)
      (by decide) (by decide) (by decide) (by decide) rfl (by decide)
      (by decide)).2

/-- C4 counterexample: with the current instant 5 and a deadline parsing to
exactly 5, campaign creation succeeds with 201 instead of rejecting the
not-strictly-future deadline. -/
theorem deadline_equal_now_accepted :
    (createCampaign parseAt5 5 "c1" authOwnerW creqW emptyDB).1.status = 201
    ∧ (createCampaign parseAt5 5 "c1" authOwnerW creqW emptyDB).1.status
        ≠ 400 := by
  decide

/-- C4 amended: after the role and required-field checks pass, the deadline
is rejected with 400 "Invalid or past deadline" exactly when it fails to
parse or parses strictly before the current instant — the comparison is
`deadlineDate < new Date()`, so a deadline equal to the current instant is
accepted. -/
theorem deadline_validation (parseDate : String → Option Nat) (now : Nat)
    (newId : String) (auth : Auth) (req : CreateCampaignReq) (db : DB)
    (hrole : auth.role = "campaignOwner" ∨ auth.role = "admin")
    (ht : truthyStr req.title = true) (hd : truthyStr req.description = true)
    (hg : truthyInt req.goalAmount = true)
    (hdl : truthyStr req.deadline = true) (hi : truthyStr req.image = true) :
    (createCampaign parseDate now newId auth req db).1
        = ⟨400, "Invalid or past deadline"⟩
      ↔ (parseDate (req.deadline.getD "") = none
         ∨ ∃ t, parseDate (req.deadline.getD "") = some t ∧ t < now) := by
  have hrole' : (auth.role == "campaignOwner" || auth.role == "admin") = true := by
    rcases hrole with h | h <;> simp [h]
  cases hp : parseDate (req.deadline.getD "") with
  | none => simp [createCampaign, hrole', ht, hd, hg, hdl, hi, hp]
  | some t =>
    by_cases hlt : t < now
    · simp [createCampaign, hrole', ht, hd, hg, hdl, hi, hp, hlt]
    · by_cases hdup : (db.campaigns.find?
          (fun c => c.title == req.title.getD ""
            && c.owner == auth.id)).isSome = true
      · simp [createCampaign, hrole', ht, hd, hg, hdl, hi, hp, hlt, hdup]
      · simp [createCampaign, hrole', ht, hd, hg, hdl, hi, hp, hlt, hdup]

/-- C4 amended witness: an unparseable deadline is rejected. -/
theorem deadline_validation_witness :
    truthyStr creqW.title = true
    ∧ ((createCampaign (fun _ => none) 5 "c1" authOwnerW creqW emptyDB).1
        = ⟨400, "Invalid or past deadline"⟩
      ↔ ((fun (_ : String) => none) (creqW.deadline.getD "") = (none : Option Nat)
         ∨ ∃ t, (fun (_ : String) => none) (creqW.deadline.getD "") = some t
             ∧ t < 5)) := by
  refine ⟨by decide, ?_⟩
  exact deadline_validation (fun _ => none) 5 "c1" authOwnerW creqW emptyDB
    (Or.inl rfl) (by decide) (by decide) (by decide) (by decide) (by decide)

/-- C5 counterexample: a registration with role "admin", a fresh email and
a missing password answers the generic 500 "Server error", not a
validation error. -/
theorem invalid_role_not_always_validation_error :
    (register hashW "u1" ⟨some "x", some "fresh@x.com", none, some "admin"⟩
      emptyDB).1 = ⟨500, "Server error"⟩
    ∧ (register hashW "u1" ⟨some "x", some "fresh@x.com", none, some "admin"⟩
      emptyDB).1.status ≠ 400 := by
  decide

/-- C5 amended: a role outside {backer, campaignOwner} yields the 400
"Invalid role selected" validation error only when the email is fresh and a
password is present; an already-registered email answers 400 "Email already
registered" before the role is examined, and a fresh email with a missing
password answers the generic 500 "Server error". -/
theorem invalid_role_cases (hash : String → String) (newId : String)
    (req : RegisterReq) (db : DB)
    (hrole : req.role ≠ some "backer" ∧ req.role ≠ some "campaignOwner") :
    (emailExists db req.email = true →
      (register hash newId req db).1 = ⟨400, "Email already registered"⟩)
    ∧ (emailExists db req.email = false → req.password = none →
      (register hash newId req db).1 = ⟨500, "Server error"⟩)
    ∧ (∀ pw, emailExists db req.email = false → req.password = some pw →
      (register hash newId req db).1 = ⟨400, "Invalid role selected"⟩) := by
  obtain ⟨h1, h2⟩ := hrole
  have hb1 : (req.role == some "backer") = false := beq_eq_false_iff_ne.mpr h1
  have hb2 : (req.role == some "campaignOwner") = false :=
    beq_eq_false_iff_ne.mpr h2
  refine ⟨fun he => ?_, fun he hp => ?_, fun pw he hp => ?_⟩
  · simp [register, he]
  · simp [register, he, hp]
  · simp [register, he, hp, hb1, hb2]

/-- C5 amended witness: role "admin" with a fresh email and a present
password yields the role validation error. -/
theorem invalid_role_cases_witness :
    ((some "admin" : Option String) ≠ some "backer"
      ∧ (some "admin" : Option String) ≠ some "campaignOwner")
    ∧ (register hashW "u3" ⟨some "x", some "e@e", some "pw", some "admin"⟩
        emptyDB).1 = ⟨400, "Invalid role selected"⟩ := by
  refine ⟨⟨by decide, by decide⟩, ?_⟩
  exact (invalid_role_cases hashW "u3"
    ⟨some "x", some "e@e", some "pw", some "admin"⟩ emptyDB
    ⟨by decide, by decide⟩).2.2 "pw" (by decide) rfl

/-- C8: the contribution handler validates the amount in no way — for an
existing campaign any amount, in particular a negative one, is accepted
with 201, a Transaction carrying that amount is recorded, and raisedAmount
becomes the prior value (0 when missing) plus the amount, strictly
decreasing on a negative amount. -/
theorem negative_amount_accepted (uuid : String) (auth : Auth) (cid : String)
    (a : Int) (msg : Option String) (c : Campaign) (db : DB)
    (hauth : auth.id ≠ "") (hvalid : isValidObjectId cid = true)
    (hfind : db.campaigns.find? (fun x => x.id == cid) = some c)
    (hneg : a < 0) :
    (transact uuid auth ⟨cid, a, msg⟩ db).1 = ⟨201, "Transaction successful"⟩
    ∧ (∃ t, (transact uuid auth ⟨cid, a, msg⟩ db).2.transactions
        = db.transactions ++ [t] ∧ t.amount = a)
    ∧ (∃ c', (transact uuid auth ⟨cid, a, msg⟩ db).2.campaigns.find?
          (fun x => x.id == cid) = some c'
        ∧ c'.raisedAmount = some (c.raisedAmount.getD 0 + a)
        ∧ c.raisedAmount.getD 0 + a < c.raisedAmount.getD 0) := by
  have hba : (auth.id == "") = false := beq_eq_false_iff_ne.mpr hauth
  have hc : findCampaignById db (TransactReq.mk cid a msg).campaignId
      = .ok (some c) := by
    simp [findCampaignById, hvalid, hfind]
  refine ⟨?_, ⟨contribTx uuid auth ⟨cid, a, msg⟩, ?_, rfl⟩, ?_⟩
  · rw [transact_ok uuid auth _ db c hba hc]
  · exact transact_ok_transactions uuid auth _ db c hba hc
  · refine ⟨contribUpdatedCampaign auth a c, ?_, rfl, by omega⟩
    rw [transact_ok_campaigns uuid auth ⟨cid, a, msg⟩ db c hba hc]
    exact find_replace_by Campaign.id db.campaigns cid c
      (contribUpdatedCampaign auth a c) hfind rfl

/-- C8 witness: a contribution of -50 on dbW. -/
theorem negative_amount_accepted_witness :
    authW.id ≠ ""
    ∧ dbW.campaigns.find? (fun x => x.id == oid1) = some campW
    ∧ ((-50 : Int) < 0)
    ∧ (transact "p8" authW ⟨oid1, -50, none⟩ dbW).1
        = ⟨201, "Transaction successful"⟩ := by
  refine ⟨by decide, by decide, by decide, ?_⟩
  exact (negative_amount_accepted "p8" authW oid1 (-50) none campW dbW
    (by decide) (by decide) (by decide) (by decide)).1

/-- C2: from a state where the campaign has raisedAmount 0 and no
transactions, and the caller is neither among its supporters nor has it in
their backedCampaigns, one contribution of 200 gives raisedAmount 200,
exactly one Transaction for the campaign, the caller exactly once in
supporters and once in their backedCampaigns; a repeated contribution by
the same caller adds no duplicate to either list. -/
theorem contribution_idempotent (uuid1 uuid2 : String) (auth : Auth)
    (cid : String) (c : Campaign) (u : User) (db : DB)
    (hauth : auth.id ≠ "") (hvalid : isValidObjectId cid = true)
    (hfind : db.campaigns.find? (fun x => x.id == cid) = some c)
    (hraised : c.raisedAmount = some 0)
    (hsup : c.supporters.contains auth.id = false)
    (htx : db.transactions.filter (fun t => t.campaign == cid) = [])
    (hufind : db.users.find? (fun x => x.id == auth.id) = some u)
    (hback : u.backedCampaigns.contains cid = false) :
    ((transact uuid1 auth ⟨cid, 200, none⟩ db).2.transactions.filter
        (fun t => t.campaign == cid)).length = 1
    ∧ (∃ c1, (transact uuid1 auth ⟨cid, 200, none⟩ db).2.campaigns.find?
          (fun x => x.id == cid) = some c1
        ∧ c1.raisedAmount = some 200 ∧ c1.supporters.count auth.id = 1)
    ∧ (∃ u1, (transact uuid1 auth ⟨cid, 200, none⟩ db).2.users.find?
          (fun x => x.id == auth.id) = some u1
        ∧ u1.backedCampaigns.count cid = 1)
    ∧ (∃ c2, (transact uuid2 auth ⟨cid, 200, none⟩
            (transact uuid1 auth ⟨cid, 200, none⟩ db).2).2.campaigns.find?
          (fun x => x.id == cid) = some c2
        ∧ c2.supporters.count auth.id = 1)
    ∧ (∃ u2, (transact uuid2 auth ⟨cid, 200, none⟩
            (transact uuid1 auth ⟨cid, 200, none⟩ db).2).2.users.find?
          (fun x => x.id == auth.id) = some u2
        ∧ u2.backedCampaigns.count cid = 1) := by
  have hba : (auth.id == "") = false := beq_eq_false_iff_ne.mpr hauth
  have hc : findCampaignById db (TransactReq.mk cid 200 none).campaignId
      = .ok (some c) := by
    simp [findCampaignById, hvalid, hfind]
  have hnotmemS : auth.id ∉ c.supporters := by simpa using hsup
  have hnotmemB : cid ∉ u.backedCampaigns := by simpa using hback
  have htr1 : (transact uuid1 auth ⟨cid, 200, none⟩ db).2.transactions
      = db.transactions ++ [contribTx uuid1 auth ⟨cid, 200, none⟩] :=
    transact_ok_transactions uuid1 auth _ db c hba hc
  have hcamp1 : (transact uuid1 auth ⟨cid, 200, none⟩ db).2.campaigns.find?
      (fun x => x.id == cid) = some (contribUpdatedCampaign auth 200 c) := by
    rw [transact_ok_campaigns uuid1 auth ⟨cid, 200, none⟩ db c hba hc]
    exact find_replace_by Campaign.id db.campaigns cid c _ hfind rfl
  have husers1 : (transact uuid1 auth ⟨cid, 200, none⟩ db).2.users
      = db.users.map (fun x =>
          if x.id == u.id then
            { u with backedCampaigns := u.backedCampaigns ++ [cid] }
          else x) :=
    transact_ok_users uuid1 auth _ db c u hba hc hufind hback
  have hufind1 : (transact uuid1 auth ⟨cid, 200, none⟩ db).2.users.find?
      (fun x => x.id == auth.id)
      = some { u with backedCampaigns := u.backedCampaigns ++ [cid] } := by
    rw [husers1]
    exact find_replace_by User.id db.users auth.id u
      { u with backedCampaigns := u.backedCampaigns ++ [cid] } hufind rfl
  have hc2 : findCampaignById (transact uuid1 auth ⟨cid, 200, none⟩ db).2
      (TransactReq.mk cid 200 none).campaignId
      = .ok (some (contribUpdatedCampaign auth 200 c)) := by
    simp [findCampaignById, hvalid, hcamp1]
  have hsup1 : (contribUpdatedCampaign auth 200 c).supporters.contains auth.id
      = true := by
    simp [contribUpdatedCampaign, hsup, hnotmemS]
  have hback1 : ({ u with backedCampaigns := u.backedCampaigns ++ [cid] }
      : User).backedCampaigns.contains cid = true := by simp
  have hcamp2 : (transact uuid2 auth ⟨cid, 200, none⟩
      (transact uuid1 auth ⟨cid, 200, none⟩ db).2).2.campaigns.find?
      (fun x => x.id == cid)
      = some (contribUpdatedCampaign auth 200
          (contribUpdatedCampaign auth 200 c)) := by
    rw [transact_ok_campaigns uuid2 auth ⟨cid, 200, none⟩ _ _ hba hc2]
    exact find_replace_by Campaign.id _ cid _ _ hcamp1 rfl
  have husers2 : (transact uuid2 auth ⟨cid, 200, none⟩
      (transact uuid1 auth ⟨cid, 200, none⟩ db).2).2.users
      = (transact uuid1 auth ⟨cid, 200, none⟩ db).2.users :=
    transact_ok_users_already uuid2 auth _ _ _ _ hba hc2 hufind1 hback1
  refine ⟨?_, ⟨contribUpdatedCampaign auth 200 c, hcamp1, ?_, ?_⟩,
    ⟨{ u with backedCampaigns := u.backedCampaigns ++ [cid] }, hufind1, ?_⟩,
    ⟨contribUpdatedCampaign auth 200 (contribUpdatedCampaign auth 200 c),
      hcamp2, ?_⟩,
    ⟨{ u with backedCampaigns := u.backedCampaigns ++ [cid] }, ?_, ?_⟩⟩
  · rw [htr1, List.filter_append, htx]
    simp [contribTx]
  · simp [contribUpdatedCampaign, hraised]
  · simp [contribUpdatedCampaign, hnotmemS, List.count_append,
      List.count_eq_zero.mpr hnotmemS]
  · simp [List.count_append, List.count_eq_zero.mpr hnotmemB]
  · simp [contribUpdatedCampaign, hnotmemS, List.count_append,
      List.count_eq_zero.mpr hnotmemS]
  · rw [husers2]
    exact hufind1
  · simp [List.count_append, List.count_eq_zero.mpr hnotmemB]

/-- C2 witness: the scenario on dbW with campaign oid1 and user u1. -/
theorem contribution_idempotent_witness :
    authW.id ≠ ""
    ∧ dbW.campaigns.find? (fun x => x.id == oid1) = some campW
    ∧ (∃ c2, (transact "q2" authW ⟨oid1, 200, none⟩
          (transact "q1" authW ⟨oid1, 200, none⟩ dbW).2).2.campaigns.find?
        (fun x => x.id == oid1) = some c2
        ∧ c2.supporters.count authW.id = 1) := by
  refine ⟨by decide, by decide, ?_⟩
  exact (contribution_idempotent "q1" "q2" authW oid1 campW userW dbW
    (by decide) (by decide) (by decide) rfl (by decide) rfl (by decide)
    (by decide)).2.2.2.1

end CrowdSpark
